import Mathlib

/-!
Shallow embedding of the minilog logging engine of src/minilog_v2.hpp
(class minilog::Logger): the engine state is made explicit, the file
stream is split into an open flag plus a ghost list of written lines,
and the console sink is a ghost list of written lines.  The
asynchronous producer/consumer interaction of Logger::log,
Logger::__process_messages and Logger::__shutdown is modelled as an
interleaving transition system on a shared state.
-/

namespace Minilog

/-- Log severity levels, in the declaration order of the C++ enum
LogLevel, so the underlying integer values are TRACE = 0 .. FATAL = 5. -/
inductive LogLevel where
  | TRACE
  | DEBUG
  | INFO
  | WARNING
  | ERROR
  | FATAL
  deriving DecidableEq, Fintype

/-- Underlying integer value of a severity: its position in the C++
enum declaration. -/
def LogLevel.toNat : LogLevel → Nat
  | .TRACE => 0
  | .DEBUG => 1
  | .INFO => 2
  | .WARNING => 3
  | .ERROR => 4
  | .FATAL => 5

/-- Call-site location (std::source_location): file name and line. -/
structure SourceLoc where
  file : String
  line : Nat
  deriving DecidableEq

/-- A log record (struct LogMessage): severity, already-rendered
message text, call site, and capture timestamp (abstracted to a tick
count).  The field formatThrows is a model-level environment bit: it
marks a record for which the std::format / std::chrono call made by
Logger::__write_log_message while rendering the line would throw at
write time. -/
structure LogMessage where
  level : LogLevel
  message : String
  location : SourceLoc
  time : Nat
  formatThrows : Bool := false
  deriving DecidableEq

/-- String name of a severity (Logger::__log_level_to_string). -/
def logLevelToString : LogLevel → String
  | .TRACE => "TRACE"
  | .DEBUG => "DEBUG"
  | .INFO => "INFO"
  | .WARNING => "WARNING"
  | .ERROR => "ERROR"
  | .FATAL => "FATAL"

/-- Rendering of the capture timestamp; the concrete calendar
rendering of the zoned time is abstracted to the decimal form of the
tick count. -/
def formatTimestamp (t : Nat) : String := toString t

/-- The line written for one record: timestamp, [LEVEL], [file:line],
message — the format string of Logger::__write_log_message. -/
def formatLine (m : LogMessage) : String :=
  formatTimestamp m.time ++ " [" ++ logLevelToString m.level ++ "] [" ++
    m.location.file ++ ":" ++ toString m.location.line ++ "] " ++ m.message

/-- The console severity gate: the condition
message.level >= level_threshold_ tested by
Logger::__write_log_message (the spec calls it should_emit_console).
C++ compares the scoped enum by its underlying integer value. -/
def shouldEmitConsole (s t : LogLevel) : Bool := decide (t.toNat ≤ s.toNat)

/-- The total order TRACE < DEBUG < INFO < WARNING < ERROR < FATAL
stated by the spec, written independently of the code: position in
this listed chain. -/
def levelChain : List LogLevel := [.TRACE, .DEBUG, .INFO, .WARNING, .ERROR, .FATAL]

/-- Spec-side order on severities: a ≤ b iff a appears no later than b
in the chain of the spec. -/
abbrev levelLeSpec (a b : LogLevel) : Prop :=
  levelChain.indexOf a ≤ levelChain.indexOf b

/-- Errors thrown by Logger (std::runtime_error with fixed texts), plus
the file-open failure of Logger::__open_log_file. -/
inductive LoggerErr where
  | notInitialized
  | alreadyInitialized
  | fileOpenError
  deriving DecidableEq

/-- The engine state: the data members of class Logger.  The ofstream
file_ is represented by its open flag together with the ghost list
fileLines of lines written to it; consoleLines is the ghost list of
lines written to std::cout; threadJoinable is thread_.joinable(). -/
structure LoggerState where
  fileOpen : Bool
  fileName : String
  async : Bool
  initialized : Bool
  messages : List LogMessage
  threadJoinable : Bool
  levelThreshold : LogLevel
  enableOutputToConsole : Bool
  fileLines : List String
  consoleLines : List String
  deriving DecidableEq

/-- The state of a default-constructed Logger. -/
def LoggerState.initial : LoggerState where
  fileOpen := false
  fileName := ""
  async := false
  initialized := false
  messages := []
  threadJoinable := false
  levelThreshold := .INFO
  enableOutputToConsole := true
  fileLines := []
  consoleLines := []

/-- Logger::__write_log_message for a record whose line rendering
succeeds: the console line is written iff output-to-console is enabled
and the severity gate passes; the file line is written without
consulting the gate (it lands in the file iff the stream is open,
since insertion on a closed ofstream is a silent no-op). -/
def writeLogMessage (s : LoggerState) (m : LogMessage) : LoggerState :=
  { s with
    consoleLines :=
      if s.enableOutputToConsole && shouldEmitConsole m.level s.levelThreshold
      then s.consoleLines ++ [formatLine m]
      else s.consoleLines,
    fileLines :=
      if s.fileOpen then s.fileLines ++ [formatLine m] else s.fileLines }

/-- Logger::__open_log_file; openOk is the environment bit saying
whether the filesystem lets the open in append mode succeed. -/
def openLogFile (s : LoggerState) (openOk : Bool) : LoggerState × Option LoggerErr :=
  if openOk then ({ s with fileOpen := true }, none)
  else (s, some .fileOpenError)

/-- The init method of Logger: a second call is rejected before any
mutation; otherwise the configuration fields are stored first, then
the file is opened (an open failure propagates after the configuration
fields were already overwritten), the consumer thread is spawned in
async mode, and only then is the initialized flag set. -/
def initEngine (s : LoggerState) (fileName : String) (levelThreshold : LogLevel)
    (asy : Bool) (openOk : Bool) : LoggerState × Option LoggerErr :=
  if s.initialized then (s, some .alreadyInitialized)
  else
    let s1 := { s with fileName := fileName, levelThreshold := levelThreshold, async := asy }
    match openLogFile s1 openOk with
    | (st, some e) => (st, some e)
    | (st, none) =>
        ({ (if asy then { st with threadJoinable := true } else st) with
           initialized := true }, none)

/-- Logger::log.  The record m is already rendered and timestamped at
the call site.  A call before init is rejected before any mutation; in
async mode the record is appended at the tail of the queue, in sync
mode it is written through the sink writer at once, all under the
engine mutex. -/
def logFn (s : LoggerState) (m : LogMessage) : LoggerState × Option LoggerErr :=
  if s.initialized then
    if s.async then ({ s with messages := s.messages ++ [m] }, none)
    else (writeLogMessage s m, none)
  else (s, some .notInitialized)

/-- Logger::enable_output_to_console. -/
def setEnableOutputToConsole (s : LoggerState) (enable : Bool) : LoggerState :=
  { s with enableOutputToConsole := enable }

/-- Logger::set_level_threshold. -/
def setLevelThreshold (s : LoggerState) (level : LogLevel) : LoggerState :=
  { s with levelThreshold := level }

/-- Issue a sequence of log calls from one thread, in program order. -/
def logMany (st : LoggerState) (ms : List LogMessage) : LoggerState :=
  ms.foldl (fun s m => (logFn s m).1) st

/-- Write a whole batch of records through the sink writer, front
record first. -/
def writeAll (s : LoggerState) (ms : List LogMessage) : LoggerState :=
  ms.foldl writeLogMessage s

/-- First phase of Logger::__shutdown: in async mode with a joinable
consumer thread, the stop is requested, the thread is joined (after
which the handle is no longer joinable), and the residual queue is
written through the sink writer under the lock. -/
def shutdownJoinDrain (s : LoggerState) : LoggerState :=
  if s.async && s.threadJoinable
  then { writeAll s s.messages with messages := [], threadJoinable := false }
  else s

/-- Second phase of Logger::__shutdown: the file is closed if it is
open. -/
def closeFile (s : LoggerState) : LoggerState :=
  if s.fileOpen then { s with fileOpen := false } else s

/-- Logger::__shutdown: join-and-drain, close the file, clear the
initialized flag. -/
def shutdownFn (s : LoggerState) : LoggerState :=
  { closeFile (shutdownJoinDrain s) with initialized := false }

/-- The write loop of Logger::__process_messages over one drained
batch, accounting for records whose line rendering throws: there is no
handler in the loop or in __write_log_message, so the exception
escapes, the record in question is not written and the rest of the
batch is never reached.  The Bool records whether the loop was
terminated by such an exception (on the real jthread this reaches
std::terminate). -/
def processBatch : LoggerState → List LogMessage → LoggerState × Bool
  | s, [] => (s, false)
  | s, m :: rest =>
      if m.formatThrows then (s, true)
      else processBatch (writeLogMessage s m) rest

/-- Program counter of the consumer thread inside
Logger::__process_messages: at the top-of-loop stop check, at the
condition-variable wait, writing a privately held batch, or exited. -/
inductive ConsumerPC where
  | atCheck
  | atWait
  | writing (batch : List LogMessage)
  | exited
  deriving DecidableEq

/-- The batch privately held by the consumer: empty except while
writing. -/
def batchOf : ConsumerPC → List LogMessage
  | .writing b => b
  | _ => []

/-- Shared state of the async engine under the interleaving of
producer threads, the consumer thread and the shutdown caller.
written is the sequence of records written to the file, in write
order; enqueued is the ghost linearization of the enqueue calls, in
the order the queue mutex serialized them. -/
structure AsyncState where
  queue : List LogMessage
  written : List LogMessage
  stopRequested : Bool
  consumer : ConsumerPC
  enqueued : List LogMessage
  shutdownDone : Bool
  deriving DecidableEq

/-- The engine just after init in async mode: empty queue, consumer at
the top-of-loop check, no stop requested. -/
def AsyncState.start : AsyncState where
  queue := []
  written := []
  stopRequested := false
  consumer := .atCheck
  enqueued := []
  shutdownDone := false

/-- One atomic step of the async engine.  enq is Logger::log under the
mutex (allowed until shutdown completes, since initialized_ is cleared
only at the end of __shutdown); enterBody is the consumer passing the
top-of-loop stop check; exitLoop is the consumer observing the stop at
that check and leaving the loop; drain is the wake-up from cv_.wait
(queue non-empty or stop requested) followed by the inner while that
moves the whole queue into the private batch under the mutex; write is
the for loop writing the private batch to the file; requestStop is
shutdown raising the stop signal; shutdownDrain is shutdown, after
join, writing the residual queue and completing. -/
inductive AStep : AsyncState → AsyncState → Prop where
  | enq (s : AsyncState) (m : LogMessage) :
      s.shutdownDone = false →
      AStep s { s with queue := s.queue ++ [m], enqueued := s.enqueued ++ [m] }
  | enterBody (s : AsyncState) :
      s.consumer = .atCheck → s.stopRequested = false →
      AStep s { s with consumer := .atWait }
  | exitLoop (s : AsyncState) :
      s.consumer = .atCheck → s.stopRequested = true →
      AStep s { s with consumer := .exited }
  | drain (s : AsyncState) :
      s.consumer = .atWait → (s.queue ≠ [] ∨ s.stopRequested = true) →
      AStep s { s with consumer := .writing s.queue, queue := [] }
  | write (s : AsyncState) (b : List LogMessage) :
      s.consumer = .writing b →
      AStep s { s with written := s.written ++ b, consumer := .atCheck }
  | requestStop (s : AsyncState) :
      AStep s { s with stopRequested := true }
  | shutdownDrain (s : AsyncState) :
      s.stopRequested = true → s.consumer = .exited → s.shutdownDone = false →
      AStep s { s with written := s.written ++ s.queue, queue := [], shutdownDone := true }

/-- Reachability along engine steps. -/
inductive Reaches : AsyncState → AsyncState → Prop where
  | refl (s : AsyncState) : Reaches s s
  | tail {s t u : AsyncState} : Reaches s t → AStep t u → Reaches s u

/-- Main invariant of the async engine: the records written to the
file, the private batch and the queue together list exactly the
enqueued records in enqueue order; and once shutdown has drained, the
queue is empty and the consumer has exited. -/
def EngineInv (s : AsyncState) : Prop :=
  s.written ++ batchOf s.consumer ++ s.queue = s.enqueued ∧
  (s.shutdownDone = true → s.queue = [] ∧ s.consumer = .exited)

/-- Record enqueued in the concrete runs below. -/
def mA : LogMessage :=
  { level := .INFO, message := "a", location := { file := "t.cpp", line := 1 }, time := 0 }

/-- Second record enqueued in the concrete runs below. -/
def mB : LogMessage :=
  { level := .INFO, message := "b", location := { file := "t.cpp", line := 2 }, time := 1 }

/-- A record whose line rendering throws at write time. -/
def mBad : LogMessage :=
  { level := .INFO, message := "bad", location := { file := "t.cpp", line := 3 }, time := 2,
    formatThrows := true }

/-- A FATAL record used to exercise the console gate. -/
def mFatal : LogMessage :=
  { level := .FATAL, message := "f", location := { file := "t.cpp", line := 9 }, time := 5 }

/-- Concrete run: after enq mA. -/
def exS1 : AsyncState := ⟨[mA], [], false, .atCheck, [mA], false⟩

/-- Concrete run: consumer passed the stop check. -/
def exS2 : AsyncState := ⟨[mA], [], false, .atWait, [mA], false⟩

/-- Concrete run: consumer drained the queue into its batch. -/
def exS3 : AsyncState := ⟨[], [], false, .writing [mA], [mA], false⟩

/-- Concrete run: shutdown requested the stop while the consumer is
writing. -/
def exS4 : AsyncState := ⟨[], [], true, .writing [mA], [mA], false⟩

/-- Concrete run: consumer wrote its batch and is back at the check. -/
def exS5 : AsyncState := ⟨[], [mA], true, .atCheck, [mA], false⟩

/-- Concrete run: a producer enqueued mB after the last drain and
before the consumer re-reads the stop flag. -/
def exS6 : AsyncState := ⟨[mB], [mA], true, .atCheck, [mA, mB], false⟩

/-- Concrete run: the consumer observed the stop and exited while mB
is still queued. -/
def exS7 : AsyncState := ⟨[mB], [mA], true, .exited, [mA, mB], false⟩

/-- Concrete run: shutdown wrote the residual queue after the join. -/
def exS8 : AsyncState := ⟨[], [mA, mB], true, .exited, [mA, mB], true⟩

/-- A freshly initialized engine in sync mode with the file open. -/
def syncSt : LoggerState :=
  { LoggerState.initial with initialized := true, fileOpen := true, fileName := "t.log" }

/-- The sync engine with console output disabled. -/
def stOff : LoggerState := { syncSt with enableOutputToConsole := false }

/-- The invariant holds at the start state of the async engine. -/
theorem engineInv_start : EngineInv AsyncState.start := by
  simp [EngineInv, AsyncState.start, batchOf]

/-- Each engine step preserves the invariant. -/
theorem engineInv_step {s t : AsyncState} (h : EngineInv s) (hs : AStep s t) :
    EngineInv t := by
  obtain ⟨h1, h2⟩ := h
  cases hs with
  | enq m hsd =>
      refine ⟨?_, ?_⟩
      · simp only [← h1, List.append_assoc]
      · simp [hsd]
  | enterBody hc hr =>
      rw [hc] at h1
      refine ⟨by simpa [batchOf] using h1, ?_⟩
      intro hsd
      have := (h2 hsd).2
      rw [hc] at this
      exact absurd this (by simp)
  | exitLoop hc hr =>
      rw [hc] at h1
      refine ⟨by simpa [batchOf] using h1, ?_⟩
      intro hsd
      have := (h2 hsd).2
      rw [hc] at this
      exact absurd this (by simp)
  | drain hc hne =>
      rw [hc] at h1
      refine ⟨by simpa [batchOf] using h1, ?_⟩
      intro hsd
      have := (h2 hsd).2
      rw [hc] at this
      exact absurd this (by simp)
  | write b hc =>
      rw [hc] at h1
      refine ⟨by simpa [batchOf, List.append_assoc] using h1, ?_⟩
      intro hsd
      have := (h2 hsd).2
      rw [hc] at this
      exact absurd this (by simp)
  | requestStop =>
      exact ⟨h1, h2⟩
  | shutdownDrain hr hc hsd =>
      refine ⟨?_, by simp [hc, batchOf]⟩
      simp only [hc, batchOf] at h1 ⊢
      simpa using h1

/-- The invariant holds at every state reachable from the start. -/
theorem engineInv_reaches {s : AsyncState} (h : Reaches AsyncState.start s) :
    EngineInv s := by
  induction h with
  | refl => exact engineInv_start
  | tail _ hstep ih => exact engineInv_step ih hstep

/-- Step of the concrete run: a producer enqueues mA. -/
theorem step01 : AStep AsyncState.start exS1 :=
  AStep.enq AsyncState.start mA rfl

/-- Step of the concrete run: the consumer passes the stop check. -/
theorem step12 : AStep exS1 exS2 :=
  AStep.enterBody exS1 rfl rfl

/-- Step of the concrete run: the consumer drains the queue. -/
theorem step23 : AStep exS2 exS3 :=
  AStep.drain exS2 rfl (Or.inl (by simp [exS2]))

/-- Step of the concrete run: shutdown raises the stop signal. -/
theorem step34 : AStep exS3 exS4 :=
  AStep.requestStop exS3

/-- Step of the concrete run: the consumer writes its batch. -/
theorem step45 : AStep exS4 exS5 :=
  AStep.write exS4 [mA] rfl

/-- Step of the concrete run: a producer enqueues mB during shutdown's
join wait. -/
theorem step56 : AStep exS5 exS6 :=
  AStep.enq exS5 mB rfl

/-- Step of the concrete run: the consumer observes the stop and exits
with mB still queued. -/
theorem step67 : AStep exS6 exS7 :=
  AStep.exitLoop exS6 rfl rfl

/-- Step of the concrete run: shutdown writes the residual queue after
the join. -/
theorem step78 : AStep exS7 exS8 :=
  AStep.shutdownDrain exS7 rfl rfl rfl

/-- The race state exS6 is reachable. -/
theorem reach_exS6 : Reaches AsyncState.start exS6 :=
  Reaches.tail (Reaches.tail (Reaches.tail (Reaches.tail (Reaches.tail
    (Reaches.tail (Reaches.refl _) step01) step12) step23) step34) step45) step56

/-- The completed-shutdown state exS8 is reachable. -/
theorem reach_exS8 : Reaches AsyncState.start exS8 :=
  Reaches.tail (Reaches.tail reach_exS6 step67) step78

/-- Writing a batch does not change the async flag. -/
theorem writeAll_async (s : LoggerState) (ms : List LogMessage) :
    (writeAll s ms).async = s.async := by
  induction ms generalizing s with
  | nil => rfl
  | cons m rest ih => simpa [writeAll] using ih (writeLogMessage s m)

/-- Writing a batch does not change the thread handle. -/
theorem writeAll_threadJoinable (s : LoggerState) (ms : List LogMessage) :
    (writeAll s ms).threadJoinable = s.threadJoinable := by
  induction ms generalizing s with
  | nil => rfl
  | cons m rest ih => simpa [writeAll] using ih (writeLogMessage s m)

/-- Writing a batch does not change the open flag of the file. -/
theorem writeAll_fileOpen (s : LoggerState) (ms : List LogMessage) :
    (writeAll s ms).fileOpen = s.fileOpen := by
  induction ms generalizing s with
  | nil => rfl
  | cons m rest ih => simpa [writeAll] using ih (writeLogMessage s m)

/-- The join-and-drain phase does not change the async flag. -/
theorem shutdownJoinDrain_async (s : LoggerState) :
    (shutdownJoinDrain s).async = s.async := by
  unfold shutdownJoinDrain
  split
  · exact writeAll_async s s.messages
  · rfl

/-- After the join-and-drain phase the thread is never joinable
together with async mode: either the thread was joined, or the guard
was already false. -/
theorem shutdownJoinDrain_guard (s : LoggerState) :
    ((shutdownJoinDrain s).async && (shutdownJoinDrain s).threadJoinable) = false := by
  unfold shutdownJoinDrain
  split
  · simp
  · next h => simpa using h

/-- The close phase leaves the file closed. -/
theorem closeFile_fileOpen (s : LoggerState) : (closeFile s).fileOpen = false := by
  unfold closeFile
  split
  · rfl
  · next h => simpa using h

/-- The close phase does not change the async flag. -/
theorem closeFile_async (s : LoggerState) : (closeFile s).async = s.async := by
  unfold closeFile
  split <;> rfl

/-- The close phase does not change the thread handle. -/
theorem closeFile_threadJoinable (s : LoggerState) :
    (closeFile s).threadJoinable = s.threadJoinable := by
  unfold closeFile
  split <;> rfl

/-- Shutdown leaves the engine uninitialized. -/
theorem shutdownFn_initialized (s : LoggerState) :
    (shutdownFn s).initialized = false := rfl

/-- Shutdown leaves the file closed. -/
theorem shutdownFn_fileOpen (s : LoggerState) : (shutdownFn s).fileOpen = false :=
  closeFile_fileOpen _

/-- After shutdown the join-and-drain guard is false. -/
theorem shutdownFn_guard (s : LoggerState) :
    ((shutdownFn s).async && (shutdownFn s).threadJoinable) = false := by
  have h1 : (shutdownFn s).async = (shutdownJoinDrain s).async := closeFile_async _
  have h2 : (shutdownFn s).threadJoinable = (shutdownJoinDrain s).threadJoinable :=
    closeFile_threadJoinable _
  rw [h1, h2]
  exact shutdownJoinDrain_guard s

/-- Clearing an already-clear initialized flag is the identity. -/
theorem clear_initialized_eq (s : LoggerState) (h : s.initialized = false) :
    { s with initialized := false } = s := by
  cases s
  simp_all

/-- C1: zero record loss through shutdown in async mode.  In every
reachable execution of the async engine in which shutdown has
completed its post-join drain, the sequence of records written to the
file is exactly the sequence of enqueued records (each enqueued record
written exactly once, in order — including records that arrived after
the consumer's last drain, which the shutdownDrain step writes after
the join) and the queue is empty. -/
theorem c1_no_record_loss (s : AsyncState)
    (h : Reaches AsyncState.start s) (hdone : s.shutdownDone = true) :
    s.written = s.enqueued ∧ s.queue = [] := by
  obtain ⟨h1, h2⟩ := engineInv_reaches h
  obtain ⟨hq, hc⟩ := h2 hdone
  refine ⟨?_, hq⟩
  simpa [hq, hc, batchOf] using h1

/-- Witness for C1 on the concrete run ending in exS8. -/
theorem c1_no_record_loss_witness :
    exS8.written = exS8.enqueued ∧ exS8.queue = [] :=
  c1_no_record_loss exS8 reach_exS8 rfl

/-- C2 counterexample: it is not true that the consumer loop exits
only when the queue was empty at the moment the stop signal was
observed.  In the reachable state exS6 a producer has enqueued mB
after the consumer's last drain; the consumer then observes the stop
at the top-of-loop check and exits while mB is still queued. -/
theorem c2_exit_with_nonempty_queue_cex :
    ¬ (∀ s t : AsyncState, Reaches AsyncState.start s → AStep s t →
        s.consumer ≠ ConsumerPC.exited → t.consumer = ConsumerPC.exited →
        s.queue = []) := by
  intro hall
  have h := hall exS6 exS7 reach_exS6 step67 (by simp [exS6]) rfl
  simp [exS6] at h

/-- C2 amended: the consumer loop exits exactly when it observes the
stop signal at the top-of-loop check; the queue contents at that
moment are not consulted.  Any transition into the exited state comes
from the check position with the stop signal raised. -/
theorem c2_exit_means_stop_observed {s t : AsyncState} (hs : AStep s t)
    (hne : s.consumer ≠ ConsumerPC.exited) (hex : t.consumer = ConsumerPC.exited) :
    s.consumer = ConsumerPC.atCheck ∧ s.stopRequested = true := by
  cases hs <;> simp_all

/-- Witness for the amended C2 on the concrete exit step of the run. -/
theorem c2_exit_means_stop_observed_witness :
    exS6.consumer = ConsumerPC.atCheck ∧ exS6.stopRequested = true :=
  c2_exit_means_stop_observed step67 (by simp [exS6]) rfl

/-- C3: shutdown is idempotent on the engine state.  A second
__shutdown after a first one finds the thread no longer joinable and
the file closed, so it only re-clears the initialized flag: no
writes, no error, same final state. -/
theorem c3_shutdown_idempotent (s : LoggerState) :
    shutdownFn (shutdownFn s) = shutdownFn s := by
  have hg : shutdownJoinDrain (shutdownFn s) = shutdownFn s := by
    unfold shutdownJoinDrain
    rw [shutdownFn_guard s]
    simp
  have hcf : closeFile (shutdownFn s) = shutdownFn s := by
    unfold closeFile
    rw [shutdownFn_fileOpen s]
    simp
  show { closeFile (shutdownJoinDrain (shutdownFn s)) with initialized := false } = shutdownFn s
  rw [hg, hcf]
  exact clear_initialized_eq _ (shutdownFn_initialized s)

/-- C4: a log call on an uninitialized engine fails with
NotInitialized and leaves the state (hence both sinks) unchanged; a
second init call fails with AlreadyInitialized and leaves the state
unchanged (no reopen, no second consumer thread). -/
theorem c4_lifecycle_errors :
    (∀ (s : LoggerState) (m : LogMessage), s.initialized = false →
      logFn s m = (s, some LoggerErr.notInitialized)) ∧
    (∀ (s : LoggerState) (fn : String) (lv : LogLevel) (asy ok : Bool),
      s.initialized = true →
      initEngine s fn lv asy ok = (s, some LoggerErr.alreadyInitialized)) := by
  constructor
  · intro s m h
    simp [logFn, h]
  · intro s fn lv asy ok h
    simp [initEngine, h]

/-- Witness for C4 at the default-constructed state and at an
initialized state. -/
theorem c4_lifecycle_errors_witness :
    logFn LoggerState.initial mA = (LoggerState.initial, some LoggerErr.notInitialized) ∧
    initEngine syncSt "x.log" LogLevel.INFO true true =
      (syncSt, some LoggerErr.alreadyInitialized) :=
  ⟨c4_lifecycle_errors.1 LoggerState.initial mA rfl,
   c4_lifecycle_errors.2 syncSt "x.log" LogLevel.INFO true true rfl⟩

/-- C5: the console severity gate is pure and passes exactly when the
record severity is at least the threshold under the total order
TRACE < DEBUG < INFO < WARNING < ERROR < FATAL (stated via the
independent chain order levelLeSpec). -/
theorem c5_severity_gate :
    ∀ s t : LogLevel, shouldEmitConsole s t = true ↔ levelLeSpec t s := by
  decide

/-- C6: the file sink is unconditional.  Whenever the file stream is
open (as it is from init to shutdown), the sink writer appends the
formatted line to the file for every record, whatever the console
threshold and whatever the console-enable flag in the state. -/
theorem c6_file_sink_unconditional (s : LoggerState) (m : LogMessage)
    (h : s.fileOpen = true) :
    (writeLogMessage s m).fileLines = s.fileLines ++ [formatLine m] := by
  simp [writeLogMessage, h]

/-- Witness for C6 on an engine with console output disabled. -/
theorem c6_file_sink_unconditional_witness :
    (writeLogMessage stOff mA).fileLines = stOff.fileLines ++ [formatLine mA] :=
  c6_file_sink_unconditional stOff mA rfl

/-- C7: FIFO ordering.  Async: in every reachable state the file, the
consumer's private batch and the queue concatenate to exactly the
linearization of the enqueue calls, so the file order is the enqueue
order — in particular each caller thread's program order, which the
per-call mutex embeds into that linearization, is preserved.  Sync: a
sequence of log calls appends its lines to the file in call order. -/
theorem c7_fifo_order :
    (∀ s : AsyncState, Reaches AsyncState.start s →
      s.written ++ batchOf s.consumer ++ s.queue = s.enqueued) ∧
    (∀ (st : LoggerState) (ms : List LogMessage),
      st.async = false → st.initialized = true → st.fileOpen = true →
      (logMany st ms).fileLines = st.fileLines ++ List.map formatLine ms) := by
  constructor
  · intro s h
    exact (engineInv_reaches h).1
  · intro st ms
    induction ms generalizing st with
    | nil =>
        intro _ _ _
        simp [logMany]
    | cons m rest ih =>
        intro ha hi hf
        have hstep : logMany st (m :: rest) = logMany (writeLogMessage st m) rest := by
          simp [logMany, logFn, hi, ha]
        rw [hstep, ih (writeLogMessage st m) ha hi hf]
        simp [writeLogMessage, hf]

/-- Witness for C7: the async part on the concrete run, the sync part
on two records from one thread. -/
theorem c7_fifo_order_witness :
    (exS8.written ++ batchOf exS8.consumer ++ exS8.queue = exS8.enqueued) ∧
    ((logMany syncSt [mA, mB]).fileLines = syncSt.fileLines ++ List.map formatLine [mA, mB]) :=
  ⟨c7_fifo_order.1 exS8 reach_exS8, c7_fifo_order.2 syncSt [mA, mB] rfl rfl rfl⟩

/-- C8 (behavior of the code at the failing input): the drain loop has
no handler, so on a batch [mA, mBad, mB] in which rendering mBad's
line throws, the loop stops by exception after writing only mA: mBad
gets no fallback line and mB is never flushed, contradicting the
spec's requirement that one bad record must not stop the rest. -/
theorem c8_consumer_crash_on_bad_record :
    processBatch syncSt [mA, mBad, mB] = (writeLogMessage syncSt mA, true) ∧
    (processBatch syncSt [mA, mBad, mB]).1.fileLines = syncSt.fileLines ++ [formatLine mA] := by
  refine ⟨rfl, ?_⟩
  simp [processBatch, mA, mBad, writeLogMessage, syncSt, LoggerState.initial]

/-- C9: a record reaches the console iff console output is enabled and
its severity passes the gate; with console output disabled no record
of any severity reaches the console while the file write is
unaffected. -/
theorem c9_console_gate (s : LoggerState) (m : LogMessage) :
    (writeLogMessage s m).consoleLines =
      (if s.enableOutputToConsole && shouldEmitConsole m.level s.levelThreshold
       then s.consoleLines ++ [formatLine m] else s.consoleLines) ∧
    (s.enableOutputToConsole = false →
      (writeLogMessage s m).consoleLines = s.consoleLines ∧
      (s.fileOpen = true →
        (writeLogMessage s m).fileLines = s.fileLines ++ [formatLine m])) := by
  refine ⟨rfl, fun hoff => ⟨?_, fun hfo => ?_⟩⟩
  · simp [writeLogMessage, hoff]
  · simp [writeLogMessage, hfo]

/-- Witness for C9: with console disabled even a FATAL record produces
no console line, while its file line is written. -/
theorem c9_console_gate_witness :
    (writeLogMessage stOff mFatal).consoleLines = stOff.consoleLines ∧
    (writeLogMessage stOff mFatal).fileLines = stOff.fileLines ++ [formatLine mFatal] := by
  have h := (c9_console_gate stOff mFatal).2 rfl
  exact ⟨h.1, h.2 rfl⟩

/-- C10: when the init call fails because the file cannot be opened,
the error propagates with the initialized flag still false, the
thread handle and file flag untouched — but the fileName,
levelThreshold and async fields already hold the new arguments: the
error path does not restore the previous configuration. -/
theorem c10_init_failure_overwrites_config (s : LoggerState) (fn : String)
    (lv : LogLevel) (asy : Bool) (h : s.initialized = false) :
    initEngine s fn lv asy false =
      ({ s with fileName := fn, levelThreshold := lv, async := asy },
        some LoggerErr.fileOpenError) ∧
    (initEngine s fn lv asy false).1.initialized = false ∧
    (initEngine s fn lv asy false).1.threadJoinable = s.threadJoinable ∧
    (initEngine s fn lv asy false).1.fileOpen = s.fileOpen ∧
    (initEngine s fn lv asy false).1.fileName = fn ∧
    (initEngine s fn lv asy false).1.levelThreshold = lv ∧
    (initEngine s fn lv asy false).1.async = asy := by
  have he : initEngine s fn lv asy false =
      ({ s with fileName := fn, levelThreshold := lv, async := asy },
        some LoggerErr.fileOpenError) := by
    simp [initEngine, openLogFile, h]
  refine ⟨he, ?_, ?_, ?_, ?_, ?_, ?_⟩ <;> simp [he, h]

/-- Witness for C10 at the default-constructed state. -/
theorem c10_init_failure_overwrites_config_witness :
    initEngine LoggerState.initial "a.log" LogLevel.DEBUG true false =
      ({ LoggerState.initial with
          fileName := "a.log", levelThreshold := LogLevel.DEBUG, async := true },
        some LoggerErr.fileOpenError) ∧
    (initEngine LoggerState.initial "a.log" LogLevel.DEBUG true false).1.initialized = false ∧
    (initEngine LoggerState.initial "a.log" LogLevel.DEBUG true false).1.threadJoinable =
      LoggerState.initial.threadJoinable ∧
    (initEngine LoggerState.initial "a.log" LogLevel.DEBUG true false).1.fileOpen =
      LoggerState.initial.fileOpen ∧
    (initEngine LoggerState.initial "a.log" LogLevel.DEBUG true false).1.fileName = "a.log" ∧
    (initEngine LoggerState.initial "a.log" LogLevel.DEBUG true false).1.levelThreshold =
      LogLevel.DEBUG ∧
    (initEngine LoggerState.initial "a.log" LogLevel.DEBUG true false).1.async = true :=
  c10_init_failure_overwrites_config LoggerState.initial "a.log" LogLevel.DEBUG true rfl

end Minilog
